import Mathlib

/-
  Shallow embedding of src/generate.js: a serverless endpoint that proxies
  chat requests to a generative-language API, choosing among candidate
  models (Prioritizer) and falling back on failure (Executor).

  JS values are modelled as follows: possibly-undefined fields become
  Option, JS truthiness of strings/numbers is made explicit (the empty
  string and 0 are falsy), thrown errors become Except, and the network
  call (axios.post) is abstracted as an oracle from (messages, model) to
  either an error or a response payload.  The executor additionally
  returns an event trace (calls made, waits performed) so that claims
  about the number of upstream calls and the backoff delay can be stated.
-/

namespace Gen

/-- The fixed model catalog, ordered from highest to lowest capability/cost
(src/generate.js lines 20-26). -/
def ALL_MODELS : List String :=
  ["gemini-2.5-pro",
   "gemini-2.5-flash",
   "gemini-1.5-pro-latest",
   "gemini-1.5-flash-latest",
   "gemini-pro"]

/-- `getDynamicModelList` (src/generate.js lines 33-58): picks the candidate
ordering from the conversation size.  Above the 4000-character threshold the
Pro-first ordering is returned, otherwise the Flash-first ordering.  The
console.log calls do not affect the returned value and are omitted. -/
def getDynamicModelList (totalChars : Nat) : List String :=
  if totalChars > 4000 then
    [ALL_MODELS.getD 0 "", ALL_MODELS.getD 2 "", ALL_MODELS.getD 1 "",
     ALL_MODELS.getD 3 "", ALL_MODELS.getD 4 ""]
  else
    [ALL_MODELS.getD 1 "", ALL_MODELS.getD 3 "", ALL_MODELS.getD 0 "",
     ALL_MODELS.getD 2 "", ALL_MODELS.getD 4 ""]

/-- One part of a message or of a response candidate: `{ text: ... }`,
where the `text` field may be absent (`none`). -/
structure Part where
  text : Option String
deriving DecidableEq, Repr

/-- `candidate.content`: carries a possibly-absent `parts` array. -/
structure Content where
  parts : Option (List Part)
deriving DecidableEq, Repr

/-- One entry of the upstream response's `candidates` array. -/
structure Candidate where
  content : Option Content
  finishReason : Option String
deriving DecidableEq, Repr

/-- `response.data`: the upstream response payload; the `candidates` array
may be absent. -/
structure ResponseData where
  candidates : Option (List Candidate)
deriving DecidableEq, Repr

/-- A thrown JS error as observed by this program: its `message`, and the
possibly-absent axios fields `error.response.status`,
`error.response.data.error.message` and `error.code`. -/
structure JsError where
  message : String
  responseStatus : Option Nat := none
  responseMessage : Option String := none
  code : Option String := none
deriving DecidableEq, Repr

/-- One message of the inbound conversation: `{ parts: [...] }` with a
possibly-absent parts array. -/
structure Message where
  parts : Option (List Part)
deriving DecidableEq, Repr

/-- JS truthiness of a possibly-absent string: `undefined` and `""` are
falsy, every other string is truthy. -/
def jsTruthyStr (s : Option String) : Bool :=
  match s with
  | none => false
  | some s => !(s == "")

/-- JS `x || d` for a possibly-absent number `x` (0 and `undefined` are
falsy, so they yield the default). -/
def jsOrNat (x : Option Nat) (d : Nat) : Nat :=
  match x with
  | none => d
  | some n => if n == 0 then d else n

/-- JS `x || d` for a possibly-absent string `x` (`undefined` and `""`
yield the default). -/
def jsOrStr (x : Option String) (d : String) : String :=
  match x with
  | none => d
  | some s => if s == "" then d else s

/-- `response.data?.candidates?.[0]` (src/generate.js line 88): the first
entry of the candidates array, if any. -/
def firstCandidate (d : ResponseData) : Option Candidate :=
  match d.candidates with
  | none => none
  | some cs => cs.head?

/-- `candidate?.content?.parts?.some(p => p.text)` for one candidate:
true iff it has a parts array containing a part with truthy text. -/
def candidateHasText (c : Candidate) : Bool :=
  match c.content with
  | none => false
  | some ct =>
    match ct.parts with
    | none => false
    | some ps => ps.any (fun p => jsTruthyStr p.text)

/-- `hasTextResult` (src/generate.js line 89), evaluated on the response
payload: the optional chain is falsy whenever the first candidate is
absent. -/
def hasTextResult (d : ResponseData) : Bool :=
  match firstCandidate d with
  | none => false
  | some c => candidateHasText c

/-- `candidate?.finishReason` (src/generate.js line 90). -/
def finishReasonOf (d : ResponseData) : Option String :=
  match firstCandidate d with
  | none => none
  | some c => c.finishReason

/-- The acceptance test of src/generate.js line 92: a truthy text result
and a finish reason of STOP or MAX_TOKENS. -/
def accepts (d : ResponseData) : Bool :=
  hasTextResult d &&
    (finishReasonOf d == some "STOP" || finishReasonOf d == some "MAX_TOKENS")

/-- `finishReason || 'Desconocida'` used when building the soft-failure
message (src/generate.js line 97). -/
def reasonText (r : Option String) : String :=
  jsOrStr r "Desconocida"

/-- The soft-failure error built at src/generate.js line 97:
`new Error(...)` with no axios response attached. -/
def softErr (model : String) (d : ResponseData) : JsError :=
  { message := "Respuesta vacía o bloqueada de " ++ model ++
      " (Razón: " ++ reasonText (finishReasonOf d) ++ ")" }

/-- The fallback error thrown at src/generate.js line 118 when the list is
exhausted with no recorded error. -/
def noModelErr : JsError :=
  { message := "No se pudo obtener una respuesta de ningún modelo de IA." }

/-- `error.response?.status || 500` (src/generate.js lines 103 and 148). -/
def statusOf (e : JsError) : Nat :=
  jsOrNat e.responseStatus 500

/-- An observable side effect of the executor: an upstream call for a
model, or an awaited delay in milliseconds. -/
inductive Ev where
  | call (model : String)
  | wait (ms : Nat)
deriving DecidableEq, Repr

/-- Result of the executor: the side-effect trace in order, and either the
accepted response payload or the thrown error. -/
structure FetchResult where
  trace : List Ev
  outcome : Except JsError ResponseData

/-- The upstream dependency (axios.post to the generative-language API with
the fixed generation configuration and safety settings): given the
conversation and a model identifier it either returns a response payload
or throws an error. -/
def Upstream : Type :=
  List Message → String → Except JsError ResponseData

/-- The loop body of `fetchFromModels` (src/generate.js lines 65-115),
threading the accumulated `lastError`.  Acceptance returns immediately;
a soft failure records an error and continues with no delay; a hard
failure with status 400 rethrows at once; any other hard failure records
the error, waits 500ms, and continues.  On exhaustion the last recorded
error (or the fallback error) is thrown (line 118). -/
def fetchGo (upstream : Upstream) (messages : List Message) :
    List String → Option JsError → FetchResult
  | [], lastError => ⟨[], .error (lastError.getD noModelErr)⟩
  | model :: rest, _ =>
    match upstream messages model with
    | .ok data =>
      if accepts data then
        ⟨[.call model], .ok data⟩
      else
        let r := fetchGo upstream messages rest (some (softErr model data))
        ⟨.call model :: r.trace, r.outcome⟩
    | .error e =>
      if statusOf e == 400 then
        ⟨[.call model], .error e⟩
      else
        let r := fetchGo upstream messages rest (some e)
        ⟨.call model :: .wait 500 :: r.trace, r.outcome⟩

/-- `fetchFromModels` (src/generate.js lines 62-119): walk the candidate
list starting with no recorded error. -/
def fetchFromModels (upstream : Upstream) (messages : List Message)
    (modelList : List String) : FetchResult :=
  fetchGo upstream messages modelList none

/-- The `messages` field extracted from the request body: absent (or any
falsy value), a truthy non-array value, or an array of messages. -/
inductive MessagesVal where
  | absent
  | nonArray
  | arr (msgs : List Message)
deriving Repr

/-- The length contributed by one part in the size accumulator:
`msg.parts[0].text ? msg.parts[0].text.length : 0`. -/
def partLen (p : Part) : Nat :=
  match p.text with
  | none => 0
  | some s => if s == "" then 0 else s.length

/-- The TypeError raised when `msg.parts[0]` or `.text` is read on
undefined; it carries no axios response fields. -/
def jsTypeErr : JsError :=
  { message := "TypeError: Cannot read properties of undefined" }

/-- The size accumulator of src/generate.js line 140:
`messages.reduce((acc, msg) => acc + (msg.parts[0].text ? msg.parts[0].text.length : 0), 0)`.
Only the FIRST part of each message contributes; a message whose `parts`
is absent or empty makes the reduction throw a TypeError. -/
def computeTotalChars : List Message → Except JsError Nat
  | [] => .ok 0
  | m :: rest =>
    match m.parts with
    | none => .error jsTypeErr
    | some [] => .error jsTypeErr
    | some (p :: _) =>
      match computeTotalChars rest with
      | .error e => .error e
      | .ok n => .ok (partLen p + n)

/-- The size metric as the spec words it (section 3: "sum of character
lengths of all text segments across all messages"), stated independently
of the source for comparison with `computeTotalChars`. -/
def specTotalChars (msgs : List Message) : Nat :=
  (msgs.map (fun m => (((m.parts.getD []).map partLen)).sum)).sum

/-- The conversation size according to the source: the first part's text
length per message (what `computeTotalChars` returns when it does not
throw). -/
def firstPartChars (msgs : List Message) : Nat :=
  (msgs.map (fun m =>
    match m.parts with
    | some (p :: _) => partLen p
    | _ => 0)).sum

/-- The handler's distinct user-facing messages (src/generate.js
lines 149-153). -/
def genericMsg : String :=
  "No se pudo obtener una respuesta de los modelos. Intenta nuevamente."

def quotaMsg : String :=
  "Se ha excedido la cuota de solicitudes. Espera un momento."

def badRequestMsg : String :=
  "Solicitud inválida. Revisa el contenido, puede contener información sensible."

def timeoutMsg : String :=
  "La solicitud tardó demasiado en responder (Timeout)."

/-- The catch-branch message translation (src/generate.js lines 149-153):
start from the upstream-reported message (or the generic one), then
override for quota (429), bad request (400), and per-attempt timeout
(ECONNABORTED), in that order. -/
def finalMessage (e : JsError) : String :=
  let base := jsOrStr e.responseMessage genericMsg
  let sc := statusOf e
  if sc == 429 then quotaMsg
  else if sc == 400 then badRequestMsg
  else if e.code == some "ECONNABORTED" then timeoutMsg
  else base

/-- The spec-side category mapping for exhaustion errors (spec sections 6
and 7 as amended): 429 is quota, 400 is bad request, ECONNABORTED is
timeout, and any other failure surfaces the upstream-reported message when
one is present, otherwise the generic retry-later message. -/
def specCategoryMessage (e : JsError) : String :=
  if statusOf e = 429 then quotaMsg
  else if statusOf e = 400 then badRequestMsg
  else if e.code = some "ECONNABORTED" then timeoutMsg
  else
    match e.responseMessage with
    | some s => if s = "" then genericMsg else s
    | none => genericMsg

/-- The handler's observable responses: method rejection (405), the
validation failure (400, src/generate.js line 130), the configuration
failure (500, line 136), success (200) carrying the upstream payload, or
the catch-branch failure (lines 146-155) with its status code and
translated message. -/
inductive HandlerResp where
  | methodNotAllowed
  | validationError
  | configError
  | success (d : ResponseData)
  | failure (status : Nat) (message : String)
deriving DecidableEq, Repr

/-- `handler` (src/generate.js lines 122-157), returning the upstream-call
trace together with the response.  CORS header injection (allowCors) does
not alter the handler's result for POST requests and is omitted. -/
def handler (upstream : Upstream) (apiKey : Option String)
    (method : String) (messages : MessagesVal) : List Ev × HandlerResp :=
  if method ≠ "POST" then ([], .methodNotAllowed)
  else
    match messages with
    | .absent => ([], .validationError)
    | .nonArray => ([], .validationError)
    | .arr msgs =>
      if msgs.length == 0 then ([], .validationError)
      else if !(jsTruthyStr apiKey) then ([], .configError)
      else
        match computeTotalChars msgs with
        | .error e => ([], .failure (statusOf e) (finalMessage e))
        | .ok totalChars =>
          let r := fetchFromModels upstream msgs (getDynamicModelList totalChars)
          match r.outcome with
          | .ok d => (r.trace, .success d)
          | .error e => (r.trace, .failure (statusOf e) (finalMessage e))

/-! Concrete fixtures used to witness theorems with hypotheses. -/

/-- A single-text-part message. -/
def mkMsg (s : String) : Message :=
  ⟨some [⟨some s⟩]⟩

/-- A message whose only part has no text field. -/
def noTextMsg : Message :=
  ⟨some [⟨none⟩]⟩

/-- A message with two text parts, "ab" and "cde". -/
def multiPartMsg : Message :=
  ⟨some [⟨some "ab"⟩, ⟨some "cde"⟩]⟩

/-- An accepted response: one candidate with text and finish reason STOP. -/
def okData : ResponseData :=
  ⟨some [⟨some ⟨some [⟨some "hola"⟩]⟩, some "STOP"⟩]⟩

/-- A soft-failing response: an empty candidates array. -/
def emptyData : ResponseData :=
  ⟨some []⟩

/-- A response whose first candidate has no text (finish reason SAFETY)
while its second candidate has text and finish reason STOP. -/
def laterTextData : ResponseData :=
  ⟨some [⟨some ⟨some [⟨none⟩]⟩, some "SAFETY"⟩,
         ⟨some ⟨some [⟨some "hola"⟩]⟩, some "STOP"⟩]⟩

/-- A request-validation error: HTTP status 400. -/
def e400 : JsError :=
  { message := "Request failed with status code 400",
    responseStatus := some 400,
    responseMessage := some "Invalid request" }

/-- A retryable server error: HTTP status 503 with an upstream-reported
message. -/
def e503 : JsError :=
  { message := "Request failed with status code 503",
    responseStatus := some 503,
    responseMessage := some "The model is overloaded. Please try again later." }

/-- An upstream that accepts every call. -/
def okUp : Upstream := fun _ _ => .ok okData

/-- An upstream that always returns the empty (soft-failing) response. -/
def softUp : Upstream := fun _ _ => .ok emptyData

/-- An upstream that always fails with the 400 error. -/
def up400 : Upstream := fun _ _ => .error e400

/-- An upstream that always fails with the 503 error. -/
def up503 : Upstream := fun _ _ => .error e503

/-- An upstream that fails with the 503 error on model "a" and accepts on
every other model. -/
def mixUp : Upstream := fun _ m => if m == "a" then .error e503 else .ok okData

/-- An upstream that always returns the response whose text sits only in
the second candidate. -/
def laterTextUp : Upstream := fun _ _ => .ok laterTextData

end Gen

/-- Claim C2: for every non-negative integer totalChars, the list returned by
getDynamicModelList is a permutation of the 5-entry catalog (same set, same
length, no duplicates), and the oldest universal-fallback model
"gemini-pro" is the last element in both regimes. -/
theorem getDynamicModelList_perm_and_last (totalChars : Nat) :
    (Gen.getDynamicModelList totalChars).Perm Gen.ALL_MODELS ∧
    (Gen.getDynamicModelList totalChars).Nodup ∧
    (Gen.getDynamicModelList totalChars).getLast? = some "gemini-pro" := by
  by_cases h : totalChars > 4000 <;>
    simp only [Gen.getDynamicModelList, if_pos, if_neg, h, ite_true, ite_false] <;>
    decide

/-- Claim C3: if totalChars <= 4000 the first candidate is the fastest
current-generation model "gemini-2.5-flash"; if totalChars > 4000 the
first candidate is the highest-capability model "gemini-2.5-pro". -/
theorem getDynamicModelList_head (totalChars : Nat) :
    (totalChars ≤ 4000 →
      (Gen.getDynamicModelList totalChars).head? = some "gemini-2.5-flash") ∧
    (totalChars > 4000 →
      (Gen.getDynamicModelList totalChars).head? = some "gemini-2.5-pro") := by
  constructor
  · intro h
    have h' : ¬ totalChars > 4000 := by omega
    simp [Gen.getDynamicModelList, h', Gen.ALL_MODELS]
  · intro h
    simp [Gen.getDynamicModelList, h, Gen.ALL_MODELS]

/-- Witness for claim C3 at concrete sizes 3 and 5000. -/
theorem getDynamicModelList_head_witness :
    (Gen.getDynamicModelList 3).head? = some "gemini-2.5-flash" ∧
    (Gen.getDynamicModelList 5000).head? = some "gemini-2.5-pro" :=
  ⟨(getDynamicModelList_head 3).1 (by decide),
   (getDynamicModelList_head 5000).2 (by decide)⟩

/-- Claim C1: when the first candidate's response is accepted (non-empty
text segment in its leading candidate and finish reason STOP or
MAX_TOKENS), fetchFromModels makes exactly one upstream call and returns
that response payload unchanged; no later candidate is attempted. -/
theorem fetchFromModels_first_accepted (upstream : Gen.Upstream)
    (messages : List Gen.Message) (m : String) (rest : List String)
    (d : Gen.ResponseData)
    (hcall : upstream messages m = .ok d) (hacc : Gen.accepts d = true) :
    (Gen.fetchFromModels upstream messages (m :: rest)).trace = [Gen.Ev.call m] ∧
    (Gen.fetchFromModels upstream messages (m :: rest)).outcome = .ok d := by
  constructor <;> simp [Gen.fetchFromModels, Gen.fetchGo, hcall, hacc]

/-- Witness for claim C1: a two-candidate list whose first candidate is
accepted yields one call and that payload. -/
theorem fetchFromModels_first_accepted_witness :
    (Gen.fetchFromModels Gen.okUp [Gen.mkMsg "hola"]
      ["gemini-2.5-flash", "gemini-pro"]).trace = [Gen.Ev.call "gemini-2.5-flash"] ∧
    (Gen.fetchFromModels Gen.okUp [Gen.mkMsg "hola"]
      ["gemini-2.5-flash", "gemini-pro"]).outcome = .ok Gen.okData :=
  fetchFromModels_first_accepted Gen.okUp [Gen.mkMsg "hola"]
    "gemini-2.5-flash" ["gemini-pro"] Gen.okData rfl (by decide)

/-- Claim C4: when the first candidate fails with an upstream error whose
HTTP status is 400, fetchFromModels makes exactly one upstream call and
rethrows that error immediately; the second and later candidates are never
invoked. -/
theorem fetchFromModels_400_aborts (upstream : Gen.Upstream)
    (messages : List Gen.Message) (m1 m2 : String) (rest : List String)
    (e : Gen.JsError)
    (hcall : upstream messages m1 = .error e)
    (hst : e.responseStatus = some 400) :
    (Gen.fetchFromModels upstream messages (m1 :: m2 :: rest)).trace =
      [Gen.Ev.call m1] ∧
    (Gen.fetchFromModels upstream messages (m1 :: m2 :: rest)).outcome =
      .error e := by
  have h4 : Gen.statusOf e = 400 := by simp [Gen.statusOf, Gen.jsOrNat, hst]
  constructor <;> simp [Gen.fetchFromModels, Gen.fetchGo, hcall, h4]

/-- Witness for claim C4: a constant-400 upstream on a two-candidate list
yields one call and that error. -/
theorem fetchFromModels_400_aborts_witness :
    (Gen.fetchFromModels Gen.up400 [Gen.mkMsg "hola"] ["a", "b"]).trace =
      [Gen.Ev.call "a"] ∧
    (Gen.fetchFromModels Gen.up400 [Gen.mkMsg "hola"] ["a", "b"]).outcome =
      .error Gen.e400 :=
  fetchFromModels_400_aborts Gen.up400 [Gen.mkMsg "hola"] "a" "b" []
    Gen.e400 rfl rfl

/-- Claim C6: when the first candidate fails with a retryable error (status
other than 400) and the second candidate is accepted, fetchFromModels makes
exactly two upstream calls with the fixed 500ms backoff wait between them,
and returns the second candidate's payload. -/
theorem fetchFromModels_retry_then_accept (upstream : Gen.Upstream)
    (messages : List Gen.Message) (m1 m2 : String) (rest : List String)
    (e : Gen.JsError) (d : Gen.ResponseData)
    (h1 : upstream messages m1 = .error e) (hs : Gen.statusOf e ≠ 400)
    (h2 : upstream messages m2 = .ok d) (ha : Gen.accepts d = true) :
    (Gen.fetchFromModels upstream messages (m1 :: m2 :: rest)).trace =
      [Gen.Ev.call m1, Gen.Ev.wait 500, Gen.Ev.call m2] ∧
    (Gen.fetchFromModels upstream messages (m1 :: m2 :: rest)).outcome =
      .ok d := by
  constructor <;> simp [Gen.fetchFromModels, Gen.fetchGo, h1, h2, ha, hs]

/-- Witness for claim C6: [retryable 503, accept] gives the trace
[call, wait 500, call] and the second payload. -/
theorem fetchFromModels_retry_then_accept_witness :
    (Gen.fetchFromModels Gen.mixUp [Gen.mkMsg "hola"] ["a", "b"]).trace =
      [Gen.Ev.call "a", Gen.Ev.wait 500, Gen.Ev.call "b"] ∧
    (Gen.fetchFromModels Gen.mixUp [Gen.mkMsg "hola"] ["a", "b"]).outcome =
      .ok Gen.okData :=
  fetchFromModels_retry_then_accept Gen.mixUp [Gen.mkMsg "hola"] "a" "b" []
    Gen.e503 Gen.okData rfl (by decide) rfl (by decide)

/-- One step of the executor loop on a soft failure: the call is recorded
and the walk continues on the tail with the soft error as last error. -/
theorem fetchGo_cons_soft (upstream : Gen.Upstream)
    (messages : List Gen.Message) (m : String) (rest : List String)
    (le : Option Gen.JsError) (d : Gen.ResponseData)
    (hd : upstream messages m = .ok d) (hacc : Gen.accepts d = false) :
    Gen.fetchGo upstream messages (m :: rest) le =
      ⟨Gen.Ev.call m ::
        (Gen.fetchGo upstream messages rest (some (Gen.softErr m d))).trace,
       (Gen.fetchGo upstream messages rest (some (Gen.softErr m d))).outcome⟩ := by
  simp [Gen.fetchGo, hd, hacc]

/-- One step of the executor loop on a retryable hard failure: the call and
the 500ms wait are recorded and the walk continues on the tail with that
error as last error. -/
theorem fetchGo_cons_hard (upstream : Gen.Upstream)
    (messages : List Gen.Message) (m : String) (rest : List String)
    (le : Option Gen.JsError) (e : Gen.JsError)
    (hd : upstream messages m = .error e) (hst : Gen.statusOf e ≠ 400) :
    Gen.fetchGo upstream messages (m :: rest) le =
      ⟨Gen.Ev.call m :: Gen.Ev.wait 500 ::
        (Gen.fetchGo upstream messages rest (some e)).trace,
       (Gen.fetchGo upstream messages rest (some e)).outcome⟩ := by
  simp [Gen.fetchGo, hd, hst]

/-- Helper for claim C5: walking any non-empty all-soft-failing candidate
list produces one call per candidate (no waits) and ends with the soft
error of the last candidate, whatever error was recorded before. -/
theorem fetchGo_all_soft (upstream : Gen.Upstream) (messages : List Gen.Message) :
    ∀ (models : List String) (le : Option Gen.JsError),
      models ≠ [] →
      (∀ m ∈ models, ∃ d, upstream messages m = .ok d ∧ Gen.accepts d = false) →
      (Gen.fetchGo upstream messages models le).trace = models.map Gen.Ev.call ∧
      ∃ mlast d, models.getLast? = some mlast ∧
        upstream messages mlast = .ok d ∧
        (Gen.fetchGo upstream messages models le).outcome =
          .error (Gen.softErr mlast d) := by
  intro models
  induction models with
  | nil => intro le hne _; exact absurd rfl hne
  | cons m rest ih =>
    intro le hne hsoft
    obtain ⟨d, hd, hacc⟩ := hsoft m (List.mem_cons_self m rest)
    cases rest with
    | nil =>
      refine ⟨?_, m, d, rfl, hd, ?_⟩ <;>
        simp [Gen.fetchGo, hd, hacc]
    | cons m2 rest2 =>
      have hsoft2 : ∀ x ∈ m2 :: rest2,
          ∃ d, upstream messages x = .ok d ∧ Gen.accepts d = false :=
        fun x hx => hsoft x (List.mem_cons_of_mem m hx)
      obtain ⟨ht, mlast, d2, hlast, hup2, hout⟩ :=
        ih (some (Gen.softErr m d)) (by simp) hsoft2
      have hstep := fetchGo_cons_soft upstream messages m (m2 :: rest2) le d hd hacc
      refine ⟨?_, mlast, d2, ?_, hup2, ?_⟩
      · rw [hstep]
        simpa using ht
      · simpa [List.getLast?_cons_cons] using hlast
      · rw [hstep]
        exact hout

/-- Claim C5: when every candidate yields a soft failure (empty output or a
finish reason outside STOP/MAX_TOKENS), fetchFromModels makes exactly one
upstream call per candidate in list order, never waits between attempts,
and finally throws the soft-failure error recorded for the last
candidate. -/
theorem fetchFromModels_all_soft (upstream : Gen.Upstream)
    (messages : List Gen.Message) (models : List String)
    (hne : models ≠ [])
    (hsoft : ∀ m ∈ models, ∃ d, upstream messages m = .ok d ∧
      Gen.accepts d = false) :
    (Gen.fetchFromModels upstream messages models).trace =
      models.map Gen.Ev.call ∧
    ∃ mlast d, models.getLast? = some mlast ∧
      upstream messages mlast = .ok d ∧
      (Gen.fetchFromModels upstream messages models).outcome =
        .error (Gen.softErr mlast d) :=
  fetchGo_all_soft upstream messages models none hne hsoft

/-- Witness for claim C5: two soft-failing candidates give two calls, no
waits, and the soft error of the second one. -/
theorem fetchFromModels_all_soft_witness :
    (Gen.fetchFromModels Gen.softUp [Gen.mkMsg "hola"] ["a", "b"]).trace =
      [Gen.Ev.call "a", Gen.Ev.call "b"] ∧
    ∃ mlast d, (["a", "b"] : List String).getLast? = some mlast ∧
      Gen.softUp [Gen.mkMsg "hola"] mlast = .ok d ∧
      (Gen.fetchFromModels Gen.softUp [Gen.mkMsg "hola"] ["a", "b"]).outcome =
        .error (Gen.softErr mlast d) := by
  have h := fetchFromModels_all_soft Gen.softUp [Gen.mkMsg "hola"] ["a", "b"]
    (by decide)
    (fun m _ => ⟨Gen.emptyData, rfl, by decide⟩)
  simpa [List.map] using h

/-- Claim C10: the acceptance check inspects only the first entry of the
response's candidates array.  Whenever the first candidate (if any) has no
truthy text part — in particular when the candidates array is empty, or
when all non-empty text lives in candidates at index 1 or later, even with
finish reason STOP there — the response is not accepted, and the executor
classifies it as a soft failure. -/
theorem accepts_first_candidate_only (upstream : Gen.Upstream)
    (messages : List Gen.Message) (m : String) (d : Gen.ResponseData)
    (hup : upstream messages m = .ok d)
    (h : (Gen.firstCandidate d).all (fun c => !(Gen.candidateHasText c)) = true) :
    Gen.accepts d = false ∧
    (Gen.fetchFromModels upstream messages [m]).outcome =
      .error (Gen.softErr m d) := by
  have hacc : Gen.accepts d = false := by
    have hht : Gen.hasTextResult d = false := by
      unfold Gen.hasTextResult
      cases hfc : Gen.firstCandidate d with
      | none => rfl
      | some c =>
        have := h
        rw [hfc] at this
        simpa using this
    simp [Gen.accepts, hht]
  refine ⟨hacc, ?_⟩
  simp [Gen.fetchFromModels, Gen.fetchGo, hup, hacc]

/-- Witness for claim C10: a response whose text sits only in the second
candidate (which finished with STOP) is rejected and soft-fails. -/
theorem accepts_first_candidate_only_witness :
    Gen.accepts Gen.laterTextData = false ∧
    (Gen.fetchFromModels Gen.laterTextUp [Gen.mkMsg "hola"] ["a"]).outcome =
      .error (Gen.softErr "a" Gen.laterTextData) :=
  accepts_first_candidate_only Gen.laterTextUp [Gen.mkMsg "hola"] "a"
    Gen.laterTextData rfl (by decide)

/-- Counterexample for claim C7: on a message with parts "ab" and "cde"
the code computes size 2 (first part only), while the spec's sum over all
text segments is 5. -/
theorem totalChars_ignores_later_parts :
    Gen.computeTotalChars [Gen.multiPartMsg] = .ok 2 ∧
    Gen.specTotalChars [Gen.multiPartMsg] = 5 ∧
    Gen.computeTotalChars [Gen.multiPartMsg] ≠
      .ok (Gen.specTotalChars [Gen.multiPartMsg]) := by
  refine ⟨rfl, rfl, ?_⟩
  intro hcontra
  have h2 : Gen.computeTotalChars [Gen.multiPartMsg] = .ok 2 := rfl
  rw [h2] at hcontra
  exact absurd (Except.ok.inj hcontra) (by decide)

/-- Claim C7 as amended: the conversation size passed to the Prioritizer is
the sum over messages of the character length of each message's FIRST text
segment only (0 when that text is absent or empty); provided every message
has at least one part, the computation succeeds with that value. -/
theorem computeTotalChars_counts_first_parts (msgs : List Gen.Message)
    (h : ∀ m ∈ msgs, ∃ p ps, m.parts = some (p :: ps)) :
    Gen.computeTotalChars msgs = .ok (Gen.firstPartChars msgs) := by
  induction msgs with
  | nil => rfl
  | cons m rest ih =>
    obtain ⟨p, ps, hp⟩ := h m (List.mem_cons_self m rest)
    have ih' := ih (fun x hx => h x (List.mem_cons_of_mem m hx))
    simp [Gen.computeTotalChars, Gen.firstPartChars, hp, ih']

/-- Witness for the amended claim C7 on the two-part message. -/
theorem computeTotalChars_counts_first_parts_witness :
    Gen.computeTotalChars [Gen.multiPartMsg] =
      .ok (Gen.firstPartChars [Gen.multiPartMsg]) :=
  computeTotalChars_counts_first_parts [Gen.multiPartMsg]
    (fun m hm => by
      simp only [List.mem_singleton] at hm
      subst hm
      exact ⟨⟨some "ab"⟩, [⟨some "cde"⟩], rfl⟩)

/-- Counterexample for claim C8: a POST body whose single message has a
part without any text field passes validation — the handler contacts the
upstream (non-empty call trace) and does not return the validation
failure. -/
theorem handler_no_text_segment_counterexample :
    (Gen.handler Gen.okUp (some "key") "POST"
      (.arr [Gen.noTextMsg])).1 ≠ [] ∧
    (Gen.handler Gen.okUp (some "key") "POST"
      (.arr [Gen.noTextMsg])).2 ≠ Gen.HandlerResp.validationError := by
  constructor <;> decide

/-- Claim C8 as amended: a POST request whose messages field is missing,
not an array, or an empty array receives the validation-failure response
and the upstream is never contacted (empty call trace); bodies whose
messages merely lack text segments are not rejected by this validation. -/
theorem handler_validation_rejects (upstream : Gen.Upstream)
    (apiKey : Option String) (mv : Gen.MessagesVal)
    (h : mv = .absent ∨ mv = .nonArray ∨ mv = Gen.MessagesVal.arr []) :
    Gen.handler upstream apiKey "POST" mv =
      ([], Gen.HandlerResp.validationError) := by
  rcases h with h | h | h <;> subst h <;> rfl

/-- Witness for the amended claim C8 on a missing messages field. -/
theorem handler_validation_rejects_witness :
    Gen.handler Gen.okUp (some "key") "POST" Gen.MessagesVal.absent =
      ([], Gen.HandlerResp.validationError) :=
  handler_validation_rejects Gen.okUp (some "key")
    Gen.MessagesVal.absent (Or.inl rfl)

/-- Counterexample for claim C9: after exhaustion on a retryable 503 error
that carries an upstream-reported message, the handler surfaces that
upstream message, not the generic retry-later message the claim
prescribes for this category. -/
theorem handler_surfaces_upstream_message :
    (Gen.handler Gen.up503 (some "key") "POST"
      (.arr [Gen.mkMsg "hola"])).2 =
      .failure 503 "The model is overloaded. Please try again later." ∧
    "The model is overloaded. Please try again later." ≠ Gen.genericMsg := by
  constructor
  · rfl
  · decide

/-- Claim C9 as amended: for every POST request that passes validation and
configuration and ends in failure — whether the size computation throws,
or fetchFromModels fails in any shape (immediate 400 abort, soft-failure
exhaustion, mixed or uniform hard failures) with last observed error e —
the handler responds with that error's upstream status (500 when none) and
a message determined by its category: 429 gives the quota message, 400 the
bad-request message, ECONNABORTED the timeout message, and any other
failure surfaces the upstream-reported error message when present and
non-empty, otherwise the generic retry-later message. -/
theorem handler_failure_category (upstream : Gen.Upstream)
    (apiKey : Option String) (msgs : List Gen.Message)
    (e : Gen.JsError)
    (hkey : Gen.jsTruthyStr apiKey = true)
    (hne : msgs ≠ [])
    (hfail : Gen.computeTotalChars msgs = .error e ∨
      ∃ n, Gen.computeTotalChars msgs = .ok n ∧
        (Gen.fetchFromModels upstream msgs
          (Gen.getDynamicModelList n)).outcome = .error e) :
    (Gen.handler upstream apiKey "POST" (.arr msgs)).2 =
      .failure (Gen.statusOf e)
        (if Gen.statusOf e = 429 then Gen.quotaMsg
         else if Gen.statusOf e = 400 then Gen.badRequestMsg
         else if e.code = some "ECONNABORTED" then Gen.timeoutMsg
         else Gen.jsOrStr e.responseMessage Gen.genericMsg) := by
  have hlen : (msgs.length == 0) = false := by
    cases msgs with
    | nil => exact absurd rfl hne
    | cons a l => rfl
  have hmsg : Gen.finalMessage e =
      (if Gen.statusOf e = 429 then Gen.quotaMsg
       else if Gen.statusOf e = 400 then Gen.badRequestMsg
       else if e.code = some "ECONNABORTED" then Gen.timeoutMsg
       else Gen.jsOrStr e.responseMessage Gen.genericMsg) := by
    simp only [Gen.finalMessage, beq_iff_eq]
  rw [← hmsg]
  rcases hfail with hthrow | ⟨n, hn, hout⟩
  · simp only [Gen.handler, hlen, hkey, hthrow, Bool.not_true,
      Bool.false_eq_true, if_false, ne_eq, not_true_eq_false]
  · simp only [Gen.handler, hlen, hkey, hn, hout, Bool.not_true,
      Bool.false_eq_true, if_false, ne_eq, not_true_eq_false]

/-- Witness for the amended claim C9 on an upstream whose first candidate
fails with status 400: fetchFromModels aborts immediately and the handler
answers with status 400 and the bad-request message. -/
theorem handler_failure_category_witness :
    (Gen.handler Gen.up400 (some "key") "POST"
      (.arr [Gen.mkMsg "hola"])).2 =
      .failure (Gen.statusOf Gen.e400)
        (if Gen.statusOf Gen.e400 = 429 then Gen.quotaMsg
         else if Gen.statusOf Gen.e400 = 400 then Gen.badRequestMsg
         else if Gen.e400.code = some "ECONNABORTED" then Gen.timeoutMsg
         else Gen.jsOrStr Gen.e400.responseMessage Gen.genericMsg) :=
  handler_failure_category Gen.up400 (some "key") [Gen.mkMsg "hola"]
    Gen.e400 rfl (by decide) (Or.inr ⟨4, rfl, rfl⟩)
